import Mathlib

/-!
Verification of the captcha-ocr repository's core logic, shallowly embedded
in Lean 4. The repository has three variants of the same tool:

* a standalone page component (src/components/captcha-solver.tsx),
* a browser extension (src/public/extension/content-script.js plus a popup
  script), and
* a VS Code extension (an extension host module plus a webview script).

The embedding below translates the pixel-preprocessing loops, the selection
and crop geometry, the debounce scheduler, the webview message listener,
and the OCR.space response parsing. JavaScript numbers are modelled as
exact rationals, and 8-bit channel values as natural numbers.
-/

/-! ## Pixel model and the preprocessing pipelines -/

/-- One RGBA pixel as it appears in a canvas ImageData buffer: four bytes,
each in 0..255 (the bound is carried as hypotheses where needed). -/
structure Pixel where
  r : Nat
  g : Nat
  b : Nat
  a : Nat
  deriving DecidableEq, Repr

/-- The preprocessing configuration of the page component
(captcha-solver.tsx state): grayscale, invert, thresholdEnabled, threshold.
The scale factor only affects geometry, not the per-pixel color loops. -/
structure PreprocessConfig where
  grayscale : Bool
  invert : Bool
  thresholdEnabled : Bool
  threshold : Nat
  deriving DecidableEq, Repr

/-- Rounded luminance of the page component's grayscale loop
(captcha-solver.tsx line 90): Math.round(0.299*r + 0.587*g + 0.114*b).
The decimal weights are the exact rationals 299/1000, 587/1000, 114/1000,
and for a nonnegative rational n/1000 we have
Math.round(n/1000) = floor((n + 500)/1000), which is natural division. -/
def luminance (p : Pixel) : Nat :=
  (299 * p.r + 587 * p.g + 114 * p.b + 500) / 1000

/-- Unrounded luminance used by the webview's cropToDataUrl loop
(webview script line 341): y = 0.299*r + 0.587*g + 0.114*b, kept as an
exact rational. -/
def lumQ (p : Pixel) : ℚ :=
  (299 * (p.r : ℚ) + 587 * (p.g : ℚ) + 114 * (p.b : ℚ)) / 1000

/-- Grayscale stage of captcha-solver.tsx (lines 85-95): all three color
channels are set to the rounded luminance, alpha untouched. -/
def grayscalePixel (p : Pixel) : Pixel :=
  let l := luminance p
  ⟨l, l, l, p.a⟩

/-- Threshold stage of captcha-solver.tsx (lines 98-106): reads the red
channel (the grayscale value), binarizes with strict greater-than, writes
the three color channels; alpha is not written. -/
def thresholdPixel (t : Nat) (p : Pixel) : Pixel :=
  let bin := if p.r > t then 255 else 0
  ⟨bin, bin, bin, p.a⟩

/-- Invert stage of captcha-solver.tsx (lines 109-115): each color channel
becomes 255 - channel; alpha untouched. -/
def invertPixel (p : Pixel) : Pixel :=
  ⟨255 - p.r, 255 - p.g, 255 - p.b, p.a⟩

/-- The per-pixel color pipeline of captcha-solver.tsx drawToCanvas
(lines 84-115): grayscale runs when grayscale or thresholdEnabled is set,
then threshold when thresholdEnabled, then invert when invert. Each loop
is pixelwise, so the whole buffer transform is this map over pixels. -/
def tsxProcessPixel (cfg : PreprocessConfig) (p : Pixel) : Pixel :=
  let p1 := if cfg.grayscale || cfg.thresholdEnabled then grayscalePixel p else p
  let p2 := if cfg.thresholdEnabled then thresholdPixel cfg.threshold p1 else p1
  if cfg.invert then invertPixel p2 else p2

/-- The per-pixel loop of the webview's cropToDataUrl (webview script
lines 336-345): unconditional grayscale+threshold with v = (y >= threshold
? 255 : 0) on the unrounded luminance, all three channels set to v, and
alpha forced to 255. There is no enable flag and no invert stage in this
variant. -/
def webviewPrePixel (t : ℚ) (p : Pixel) : Pixel :=
  let v : Nat := if lumQ p ≥ t then 255 else 0
  ⟨v, v, v, 255⟩

/-- The rounded luminance of an in-range pixel stays in range. -/
theorem luminance_le_255 (p : Pixel) (hr : p.r ≤ 255) (hg : p.g ≤ 255)
    (hb : p.b ≤ 255) : luminance p ≤ 255 := by
  unfold luminance
  have hle : 299 * p.r + 587 * p.g + 114 * p.b + 500 ≤ 255500 := by omega
  calc (299 * p.r + 587 * p.g + 114 * p.b + 500) / 1000
      ≤ 255500 / 1000 := Nat.div_le_div_right hle
    _ = 255 := by norm_num

/-! ## Selection geometry: content script and popup conversion -/

/-- A display-pixel box as tracked by the content script overlay
(content-script.js getBoxRect): rational coordinates. -/
structure BoxRect where
  x : ℚ
  y : ℚ
  w : ℚ
  h : ℚ
  deriving DecidableEq, Repr

/-- The CROP_DONE payload sent by the content script on a successful
finalize (content-script.js lines 105-114). -/
structure CropMsg where
  x : ℚ
  y : ℚ
  w : ℚ
  h : ℚ
  dpr : ℚ
  deriving DecidableEq, Repr

/-- content-script.js onMouseUp (lines 95-119): if the drag is not active
nothing happens; if the finalized box has w < 2 or h < 2 the overlay is
removed and no message is sent; otherwise a CROP_DONE message with the
display-pixel rectangle plus dpr is sent. The returned Option is the
message sent (none = no message). -/
def contentOnMouseUp (active : Bool) (box : BoxRect) (dpr : ℚ) : Option CropMsg :=
  if !active then none
  else if box.w < 2 ∨ box.h < 2 then none
  else some ⟨box.x, box.y, box.w, box.h, dpr⟩

/-- JavaScript Math.round: rounds half toward positive infinity,
Math.round(q) = floor(q + 1/2). -/
def jsRound (q : ℚ) : ℤ :=
  ⌊q + 1 / 2⌋

/-- The device-pixel source rectangle computed by the popup's CROP_DONE
listener. -/
structure DeviceRect where
  sx : ℤ
  sy : ℤ
  sw : ℤ
  sh : ℤ
  deriving DecidableEq, Repr

/-- Popup CROP_DONE listener conversion (popup script lines 46-49):
sx = max(0, round(x*dpr)), sy = max(0, round(y*dpr)),
sw = max(1, round(w*dpr)), sh = max(1, round(h*dpr)). -/
def cropDoneConvert (m : CropMsg) : DeviceRect :=
  ⟨max 0 (jsRound (m.x * m.dpr)), max 0 (jsRound (m.y * m.dpr)),
   max 1 (jsRound (m.w * m.dpr)), max 1 (jsRound (m.h * m.dpr))⟩

/-- The conversion as the spec claims it (C6 wording): multiply by dpr,
round x and y to the nearest integer, floor w and h, clamp w and h to a
minimum of 1. Written from the claim, to be compared with the source's
cropDoneConvert. -/
def claimedConvertC6 (m : CropMsg) : DeviceRect :=
  ⟨jsRound (m.x * m.dpr), jsRound (m.y * m.dpr),
   max 1 ⌊m.w * m.dpr⌋, max 1 ⌊m.h * m.dpr⌋⟩

/-! ## Webview selection state and runOcrNow -/

/-- Geometry of the image as drawn on the webview canvas
(canvas._drawInfo, webview script line 138): offset and drawn size in
device pixels (all values produced by Math.floor, hence integers). -/
structure DrawInfo where
  offsetX : ℤ
  offsetY : ℤ
  drawW : ℤ
  drawH : ℤ
  deriving DecidableEq, Repr

/-- The webview's selection and image state: the four drag coordinates
(integers, since clientToCanvas floors), whether an image is loaded, and
the draw geometry when one has been drawn. -/
structure WebviewSelState where
  startX : ℤ
  startY : ℤ
  endX : ℤ
  endY : ℤ
  hasImage : Bool
  drawInfo : Option DrawInfo
  deriving DecidableEq, Repr

/-- An integer rectangle. -/
structure IntRect where
  x : ℤ
  y : ℤ
  w : ℤ
  h : ℤ
  deriving DecidableEq, Repr

/-- webview script normalizedRect (lines 289-296): min corner and absolute
extents of the drag; null when w or h is 0. -/
def normalizedRect (s : WebviewSelState) : Option IntRect :=
  let x := min s.startX s.endX
  let y := min s.startY s.endY
  let w := |s.endX - s.startX|
  let h := |s.endY - s.startY|
  if w = 0 ∨ h = 0 then none else some ⟨x, y, w, h⟩

/-- webview script selectFullImageRegion (lines 298-306): sets the drag
coordinates to the full drawn image; does nothing when there is no
draw info. -/
def selectFullImageRegion (s : WebviewSelState) : WebviewSelState :=
  match s.drawInfo with
  | none => s
  | some info =>
    { s with startX := info.offsetX, startY := info.offsetY,
             endX := info.offsetX + info.drawW, endY := info.offsetY + info.drawH }

/-- The crop rectangle computed at the top of cropToDataUrl (webview
script lines 311-313): min corner, w = max(1, floor(|endX-startX|)),
h = max(1, floor(|endY-startY|)); the coordinates are integers so the
floors are identities. -/
def cropRectOf (s : WebviewSelState) : IntRect :=
  ⟨min s.startX s.endX, min s.startY s.endY,
   max 1 |s.endX - s.startX|, max 1 |s.endY - s.startY|⟩

/-- The run-ocr message posted to the extension host (webview script
line 270): the crop rectangle stands in for the encoded data URL. -/
structure RunOcrMsg where
  rect : IntRect
  threshold : Nat
  scale : ℚ
  deriving DecidableEq, Repr

/-- webview script runOcrNow (lines 260-271): returns early when no image
is loaded; when the normalized selection is null or has w < 2 or h < 2 it
first replaces the selection with the full image region; then it always
crops the (possibly replaced) selection and posts a run-ocr message with
the current threshold and scale. none = no message posted. -/
def runOcrNow (s : WebviewSelState) (thr : Nat) (sc : ℚ) : Option RunOcrMsg :=
  if !s.hasImage then none
  else
    let s' :=
      match normalizedRect s with
      | none => selectFullImageRegion s
      | some r => if r.w < 2 ∨ r.h < 2 then selectFullImageRegion s else s
    some ⟨cropRectOf s', thr, sc⟩

/-! ## Debounce scheduler (webview script scheduleOcr) -/

/-- The slider configuration read by runOcrNow at fire time
(getThresholdVal / getScaleVal). -/
structure OcrConfig where
  threshold : Nat
  scale : ℚ
  deriving DecidableEq, Repr

/-- Semantics of the webview's debounce (webview script lines 88-93):
scheduleOcr clears any pending timer and schedules runOcrNow at
now + 450 ms. Given the triggering events as a time-ordered list of
(time, configuration-after-the-event) pairs, a pending timer fires only
if the next trigger comes at or after its deadline; runOcrNow reads the
sliders at fire time, i.e. the configuration left by the latest trigger.
The result lists the (fireTime, configuration) of each issued call. -/
def debounceCalls (delay : Nat) : List (Nat × OcrConfig) → List (Nat × OcrConfig)
  | [] => []
  | (t, c) :: rest =>
    match rest with
    | [] => [(t + delay, c)]
    | (t2, _) :: _ =>
      if t2 < t + delay then debounceCalls delay rest
      else (t + delay, c) :: debounceCalls delay rest

/-- scheduleOcr returns immediately when no image is loaded (webview
script line 90), so no call is ever issued; otherwise the debounce
semantics above applies. -/
def scheduledCalls (hasImage : Bool) (es : List (Nat × OcrConfig)) :
    List (Nat × OcrConfig) :=
  if hasImage then debounceCalls 450 es else []

/-! ## Webview message listener and recognition orchestration -/

/-- A message posted by the extension host to the webview: the payload of
ocr-result (text, confidence and durationMs may each be absent), or the
message string of ocr-error. -/
inductive WvMsg where
  | ocrResult (text : Option String) (confidence : Option ℚ) (durationMs : Option Nat)
  | ocrError (message : String)
  deriving DecidableEq, Repr

/-- The webview's displayed result state: output textarea, confidence
field (none shown as n/a or an em dash), duration field, the copy
button's disabled flag, and the busy flag set by setBusy. -/
structure WebviewUiState where
  output : String
  conf : Option ℚ
  dur : Option Nat
  copyDisabled : Bool
  busy : Bool
  deriving DecidableEq, Repr

/-- The webview's window message listener (webview script lines 351-367):
an ocr-result message unconditionally overwrites output, confidence and
duration, sets the copy button from the text, and clears busy; an
ocr-error message writes an error string into the output and clears the
fields. No stale-check of any kind guards this update. -/
def applyWebviewMessage (m : WvMsg) (_st : WebviewUiState) : WebviewUiState :=
  match m with
  | .ocrResult text confidence durationMs =>
    ⟨text.getD "", confidence, durationMs, (text.getD "") = "", false⟩
  | .ocrError message =>
    ⟨"Error: " ++ message, none, none, true, false⟩

/-- An orchestration event: a new recognition request being dispatched
(run-ocr posted, which conceptually starts a new generation), or the
completion message for the call dispatched at a given generation. -/
inductive OrchEvent where
  | request
  | completion (gen : Nat) (m : WvMsg)
  deriving DecidableEq, Repr

/-- The webview UI state paired with a ghost generation counter counting
the requests dispatched so far. The code itself keeps no such counter;
the ghost field only serves to state which completions are stale. -/
structure OrchState where
  ui : WebviewUiState
  currentGen : Nat
  deriving DecidableEq, Repr

/-- One orchestration step: dispatching a request sets busy (runOcrNow
calls setBusy(true)) and increments the ghost generation; a completion is
handled by the window message listener, which applies it unconditionally,
whatever generation it belongs to. -/
def orchStep (s : OrchState) : OrchEvent → OrchState
  | .request => ⟨{ s.ui with busy := true }, s.currentGen + 1⟩
  | .completion _ m => ⟨applyWebviewMessage m s.ui, s.currentGen⟩

/-- Run a list of orchestration events from a state. -/
def runEvents (s : OrchState) (es : List OrchEvent) : OrchState :=
  es.foldl orchStep s

/-- The initial webview UI state (empty output, no confidence or
duration, copy disabled, not busy), generation 0. -/
def orchInit : OrchState :=
  ⟨⟨"", none, none, true, false⟩, 0⟩

/-! ## Confidence aggregation -/

/-- One element of Tesseract's data.words as read by runOcr: only the
confidence field matters; (w?.confidence || 0) turns an absent value
into 0. -/
structure TessWord where
  confidence : Option ℚ
  deriving DecidableEq, Repr

/-- The fields of Tesseract's data object read by runOcr
(captcha-solver.tsx lines 164-170): text, an aggregate confidence when it
is a number, and the words array when it is an array. -/
structure TessData where
  text : Option String
  confidence : Option ℚ
  words : Option (List TessWord)
  deriving DecidableEq, Repr

/-- Confidence computation of captcha-solver.tsx runOcr (lines 166-170):
start from the aggregate confidence when it is a number, else 0; when
data.words is a nonempty array, the arithmetic mean of the word
confidences (each absent one read as 0) replaces it. The isFinite guard
on the mean always holds over exact rationals, so the mean branch is
taken whenever the array is nonempty. -/
def tsxConfidence (d : TessData) : ℚ :=
  let conf0 := match d.confidence with | some c => c | none => 0
  match d.words with
  | some ws =>
    if ws.length > 0 then
      (ws.map (fun w => w.confidence.getD 0)).sum / ws.length
    else conf0
  | none => conf0

/-- Confidence computation of the extension host's callOcrSpace (host
module lines 116-122): undefined unless WordConfidences is a nonempty
array; its entries are coerced to numbers with the NaN ones dropped
(modelled as Option, none = NaN); the mean of the survivors is used when
at least one survives, else the confidence stays undefined. -/
def extConfidence (wcs : Option (List (Option ℚ))) : Option ℚ :=
  match wcs with
  | some l =>
    if l.length > 0 then
      let vals := l.filterMap id
      if vals.length > 0 then some (vals.sum / vals.length) else none
    else none
  | none => none

/-! ## OCR.space response parsing -/

/-- The ErrorMessage field of an OCR.space response: absent, a string, or
an array of strings. -/
inductive ErrMsgField where
  | absent
  | str (s : String)
  | arr (l : List String)
  deriving DecidableEq, Repr

/-- The fields of an OCR.space JSON response read by the two remote
variants: the processing-error flag, the error message, and the first
parsed result's text and per-word confidences. -/
structure OcrSpaceResponse where
  isErroredOnProcessing : Bool
  errorMessage : ErrMsgField
  parsedText : Option String
  wordConfidences : Option (List (Option ℚ))
  deriving DecidableEq, Repr

/-- The success value returned by the extension host's callOcrSpace. -/
structure ExtOcrSuccess where
  text : String
  confidence : Option ℚ
  deriving DecidableEq, Repr

/-- JavaScript falsy-or on strings: s || d is d when s is empty or
absent, else s. -/
def strOrDefault (s : Option String) (d : String) : String :=
  match s with
  | some v => if v = "" then d else v
  | none => d

/-- Extension host callOcrSpace after a successful fetch (host module
lines 109-124): when IsErroredOnProcessing is set it throws an Error
whose message is ErrorMessage[0] when ErrorMessage is an array (the empty
string when the array is empty, as new Error(undefined) has an empty
message), else ErrorMessage itself when a nonempty string, else the
default "OCR processing error"; otherwise it returns the trimmed parsed
text and the word-confidence mean. Trimming is irrelevant to the claims
settled against this definition and the text is passed through. -/
def callOcrSpaceParse (d : OcrSpaceResponse) : Except String ExtOcrSuccess :=
  if d.isErroredOnProcessing then
    .error (match d.errorMessage with
      | .arr l => l.headD ""
      | .str s => strOrDefault (some s) "OCR processing error"
      | .absent => "OCR processing error")
  else
    .ok ⟨(d.parsedText.getD ""), extConfidence d.wordConfidences⟩

/-- The success value displayed by the browser-extension popup. -/
structure PopupOcrSuccess where
  text : String
  confidence : Option ℚ
  deriving DecidableEq, Repr

/-- Popup btnOCR handler after the fetch resolves (popup script
lines 84-96): when json is missing or IsErroredOnProcessing is set it
throws an Error whose message is the array joined with ", " when
ErrorMessage is an array, else the string when nonempty, else
"OCR failed"; otherwise it displays the trimmed text and the
MeanConfidence field (not modelled further here). -/
def popupParse (j : Option OcrSpaceResponse) : Except String PopupOcrSuccess :=
  match j with
  | none => .error "OCR failed"
  | some d =>
    if d.isErroredOnProcessing then
      .error (match d.errorMessage with
        | .arr l => String.intercalate ", " l
        | .str s => strOrDefault (some s) "OCR failed"
        | .absent => "OCR failed")
    else .ok ⟨d.parsedText.getD "", none⟩

/-! ## Text normalization of the page component -/

/-- The character class of the JavaScript regular expression backslash-s
(and of String.prototype.trim): space, tab, LF, VT, FF, CR, NBSP, the
Unicode space separators, the line and paragraph separators, and the
byte-order mark. -/
def isJsWs (c : Char) : Bool :=
  c == ' ' || c == '\t' || c == '\n' || c == '\x0b' || c == '\x0c' ||
  c == '\r' || c == ' ' || c == ' ' ||
  (0x2000 ≤ c.toNat && c.toNat ≤ 0x200A) ||
  c == ' ' || c == ' ' || c == ' ' || c == ' ' ||
  c == '　' || c == '﻿'

/-- JavaScript String.prototype.trim on a character list: drop leading
and trailing whitespace. -/
def jsTrim (l : List Char) : List Char :=
  ((l.dropWhile isJsWs).reverse.dropWhile isJsWs).reverse

/-- The global replacement of every maximal whitespace run by the empty
string: each whitespace character is deleted and every other character
kept, i.e. a filter on non-whitespace. -/
def removeWsAll (l : List Char) : List Char :=
  l.filter (fun c => !isJsWs c)

/-- The text stored into the result by captcha-solver.tsx runOcr
(line 164): (data?.text || "").trim() followed by the global whitespace
deletion. -/
def runOcrStoredText (text : Option String) : List Char :=
  removeWsAll (jsTrim (text.getD "").toList)

/-! ## Supporting lemmas -/

/-- Inverting twice restores an in-range pixel exactly. -/
theorem invertPixel_invertPixel (p : Pixel) (hr : p.r ≤ 255) (hg : p.g ≤ 255)
    (hb : p.b ≤ 255) : invertPixel (invertPixel p) = p := by
  cases p
  dsimp only [invertPixel] at *
  simp only [Pixel.mk.injEq]
  exact ⟨by omega, by omega, by omega, trivial⟩

/-- With invert disabled, every channel of the page-component pipeline's
output stays in 0..255 when the input does. -/
theorem tsxProcessPixel_le_255 (cfg : PreprocessConfig) (p : Pixel)
    (hinv : cfg.invert = false) (hr : p.r ≤ 255) (hg : p.g ≤ 255) (hb : p.b ≤ 255) :
    (tsxProcessPixel cfg p).r ≤ 255 ∧ (tsxProcessPixel cfg p).g ≤ 255 ∧
      (tsxProcessPixel cfg p).b ≤ 255 := by
  have hl := luminance_le_255 p hr hg hb
  unfold tsxProcessPixel
  rw [hinv]
  by_cases hth : cfg.thresholdEnabled
  · simp only [hth, Bool.or_true, if_true, Bool.false_eq_true, if_false]
    unfold thresholdPixel grayscalePixel
    by_cases hcmp : luminance p > cfg.threshold <;> simp [hcmp]
  · simp only [hth, Bool.or_false, Bool.false_eq_true, if_false]
    by_cases hg' : cfg.grayscale <;> simp [hg', grayscalePixel, hl, hr, hg, hb]

/-- Turning invert on only post-composes the invert stage: the first two
stages read none of the invert flag. -/
theorem tsxProcessPixel_invert_eq (cfg : PreprocessConfig) (p : Pixel) :
    tsxProcessPixel { cfg with invert := true } p =
      invertPixel (tsxProcessPixel { cfg with invert := false } p) := by
  unfold tsxProcessPixel
  simp

/-! ## Claim C1: threshold comparison -/

/-- C1, counterexample. The claim asserts that in every variant of the
pipeline a pixel whose luminance equals the threshold exactly becomes 0
(strict greater-than). In the webview variant the comparison is
non-strict (y >= threshold): the black pixel, whose luminance 0 equals
the threshold 0 exactly, is mapped to 255, not 0. -/
theorem threshold_strictness_counterexample :
    luminance ⟨0, 0, 0, 255⟩ = 0 ∧
      (webviewPrePixel 0 ⟨0, 0, 0, 255⟩).r = 255 ∧
      (webviewPrePixel 0 ⟨0, 0, 0, 255⟩).r ≠ 0 := by
  refine ⟨rfl, ?_, ?_⟩ <;> norm_num [webviewPrePixel, lumQ]

/-- C1, amended. The page-component pipeline (thresholdEnabled = true,
invert off) binarizes all three channels by strict comparison of the
rounded luminance with the threshold; the webview pipeline binarizes all
three channels by non-strict comparison of the unrounded luminance with
the threshold (so a pixel exactly at the threshold becomes white there),
and this holds for the threshold stage in composition with the grayscale
stage it always follows. -/
theorem threshold_stage_characterization (g : Bool) (t : Nat) (tq : ℚ) (p : Pixel) :
    ((thresholdPixel t (grayscalePixel p)).r
        = (if luminance p > t then 255 else 0) ∧
      (thresholdPixel t (grayscalePixel p)).g
        = (if luminance p > t then 255 else 0) ∧
      (thresholdPixel t (grayscalePixel p)).b
        = (if luminance p > t then 255 else 0)) ∧
    (tsxProcessPixel ⟨g, false, true, t⟩ p
        = thresholdPixel t (grayscalePixel p)) ∧
    ((webviewPrePixel tq p).r = (if lumQ p ≥ tq then 255 else 0) ∧
      (webviewPrePixel tq p).g = (if lumQ p ≥ tq then 255 else 0) ∧
      (webviewPrePixel tq p).b = (if lumQ p ≥ tq then 255 else 0)) := by
  refine ⟨⟨rfl, rfl, rfl⟩, ?_, rfl, rfl, rfl⟩
  unfold tsxProcessPixel
  simp

/-! ## Claim C7: invert is a self-inverse last stage -/

/-- C7: with all channels in 0..255, running the page-component pipeline
with invert enabled and applying the invert stage once more restores the
pipeline's pre-invert output exactly (invert is the last stage and a
self-inverse at 8-bit precision). -/
theorem invert_twice_restores (cfg : PreprocessConfig) (p : Pixel)
    (hr : p.r ≤ 255) (hg : p.g ≤ 255) (hb : p.b ≤ 255) :
    invertPixel (tsxProcessPixel { cfg with invert := true } p) =
      tsxProcessPixel { cfg with invert := false } p := by
  rw [tsxProcessPixel_invert_eq]
  have hbounds := tsxProcessPixel_le_255 { cfg with invert := false } p rfl hr hg hb
  exact invertPixel_invertPixel _ hbounds.1 hbounds.2.1 hbounds.2.2

/-- C7, witness at a concrete configuration and pixel. -/
theorem invert_twice_restores_witness :
    invertPixel (tsxProcessPixel { (⟨true, false, true, 160⟩ : PreprocessConfig) with invert := true } ⟨12, 200, 56, 78⟩) =
      tsxProcessPixel { (⟨true, false, true, 160⟩ : PreprocessConfig) with invert := false } ⟨12, 200, 56, 78⟩ :=
  invert_twice_restores ⟨true, false, true, 160⟩ ⟨12, 200, 56, 78⟩
    (by decide) (by decide) (by decide)

/-! ## Claim C8: alpha after the threshold stage -/

/-- C8, counterexample. The claim asserts that whenever the threshold
stage runs, every variant forces the output alpha to 255. The
page-component loops never write the alpha channel: a pixel entering
with alpha 7 leaves the thresholdEnabled pipeline with alpha 7. -/
theorem alpha_opaque_counterexample :
    (tsxProcessPixel ⟨true, false, true, 160⟩ ⟨10, 10, 10, 7⟩).a = 7 ∧
      (7 : Nat) ≠ 255 := by
  exact ⟨rfl, by decide⟩

/-- C8, amended. The webview variant forces alpha to 255; the
page-component pipeline leaves the alpha channel of every pixel
unchanged in every configuration. -/
theorem alpha_channel_characterization (cfg : PreprocessConfig) (t : ℚ) (p : Pixel) :
    (tsxProcessPixel cfg p).a = p.a ∧ (webviewPrePixel t p).a = 255 := by
  constructor
  · cases cfg with
    | mk g i te th =>
      cases g <;> cases i <;> cases te <;>
        simp [tsxProcessPixel, grayscalePixel, thresholdPixel, invertPixel]
  · rfl

/-! ## Claim C6: display-to-device pixel conversion -/

/-- The conversion as amended: every coordinate is multiplied by dpr and
rounded to the nearest integer (half up), x and y are clamped to a
minimum of 0, and w and h to a minimum of 1. Written from the amended
wording, to be compared with the source's cropDoneConvert. -/
def amendedConvertC6 (m : CropMsg) : DeviceRect :=
  ⟨max 0 (jsRound (m.x * m.dpr)), max 0 (jsRound (m.y * m.dpr)),
   max 1 (jsRound (m.w * m.dpr)), max 1 (jsRound (m.h * m.dpr))⟩

/-- C6, counterexample. The claim says w and h are floored; the popup
rounds them (Math.round). At w = 1, dpr = 1.5 the code produces a device
width of 2 while the claimed floor formula produces 1. -/
theorem crop_convert_counterexample :
    (cropDoneConvert ⟨0, 0, 1, 1, 3 / 2⟩).sw = 2 ∧
      (claimedConvertC6 ⟨0, 0, 1, 1, 3 / 2⟩).sw = 1 := by
  constructor <;> norm_num [cropDoneConvert, claimedConvertC6, jsRound]

/-- C6, amended: the popup converts the finalized display-pixel rectangle
by multiplying every coordinate by dpr and rounding to the nearest
integer, clamping x and y to a minimum of 0 and w and h to a minimum of
1; the resulting device rectangle never has nonpositive width or
height. -/
theorem crop_convert_characterization (m : CropMsg) :
    cropDoneConvert m = amendedConvertC6 m ∧
      0 ≤ (cropDoneConvert m).sx ∧ 0 ≤ (cropDoneConvert m).sy ∧
      1 ≤ (cropDoneConvert m).sw ∧ 1 ≤ (cropDoneConvert m).sh := by
  refine ⟨rfl, ?_, ?_, ?_, ?_⟩ <;> simp [cropDoneConvert]

/-! ## Claim C4: degenerate selections -/

/-- C4, counterexample. The claim says a finalized degenerate selection
produces no downstream message or recognition request in any variant. In
the webview a drag from (10,10) to (11,11) finalizes to the degenerate
1-by-1 normalized rectangle, yet runOcrNow still posts a run-ocr
request, after substituting the full-image region for the selection. -/
theorem degenerate_selection_counterexample :
    normalizedRect ⟨10, 10, 11, 11, true, some ⟨0, 0, 100, 80⟩⟩ =
        some ⟨10, 10, 1, 1⟩ ∧
      runOcrNow ⟨10, 10, 11, 11, true, some ⟨0, 0, 100, 80⟩⟩ 160 2 =
        some ⟨⟨0, 0, 100, 80⟩, 160, 2⟩ := by
  constructor
  · norm_num [normalizedRect]
  · norm_num [runOcrNow, normalizedRect, selectFullImageRegion, cropRectOf]

/-- C4, amended. In the content-script variant a finalized rectangle with
w < 2 or h < 2 is discarded silently: no CROP_DONE message is sent. In
the webview variant such a selection is never itself forwarded to
cropping: runOcrNow replaces it with the full-image region and posts the
run-ocr request for that substituted region instead. -/
theorem degenerate_selection_handling :
    (∀ (active : Bool) (box : BoxRect) (dpr : ℚ),
        box.w < 2 ∨ box.h < 2 → contentOnMouseUp active box dpr = none) ∧
    (∀ (s : WebviewSelState) (thr : Nat) (sc : ℚ),
        s.hasImage = true →
        (∀ r, normalizedRect s = some r → r.w < 2 ∨ r.h < 2) →
        runOcrNow s thr sc =
          some ⟨cropRectOf (selectFullImageRegion s), thr, sc⟩) := by
  constructor
  · intro active box dpr hdeg
    unfold contentOnMouseUp
    cases active <;> simp [hdeg]
  · intro s thr sc himg hdeg
    unfold runOcrNow
    rw [himg]
    cases hnr : normalizedRect s with
    | none => simp
    | some r => simp [hdeg r hnr]

/-- C4, witness: a 1-by-40 content-script selection sends nothing, and
the degenerate webview selection of the counterexample is replaced by
the full-image region. -/
theorem degenerate_selection_handling_witness :
    contentOnMouseUp true ⟨5, 5, 1, 40⟩ 2 = none ∧
      runOcrNow ⟨10, 10, 11, 11, true, some ⟨0, 0, 100, 80⟩⟩ 160 2 =
        some ⟨cropRectOf (selectFullImageRegion
          ⟨10, 10, 11, 11, true, some ⟨0, 0, 100, 80⟩⟩), 160, 2⟩ := by
  constructor
  · exact degenerate_selection_handling.1 true ⟨5, 5, 1, 40⟩ 2 (by norm_num)
  · refine degenerate_selection_handling.2 ⟨10, 10, 11, 11, true, some ⟨0, 0, 100, 80⟩⟩
      160 2 rfl ?_
    intro r hr
    rw [show normalizedRect ⟨10, 10, 11, 11, true, some ⟨0, 0, 100, 80⟩⟩ =
        some ⟨10, 10, 1, 1⟩ from by norm_num [normalizedRect]] at hr
    injection hr with h
    subst h
    left
    norm_num

/-! ## Claim C5: debounce coalescing -/

/-- Under a chain of triggers each arriving before the previous one's
quiet period elapses, the debounce issues exactly the one call of the
last trigger, at its deadline, with its configuration. -/
theorem debounceCalls_chain (d : Nat) :
    ∀ (es : List (Nat × OcrConfig)) (a : Nat × OcrConfig),
      List.Chain' (fun x y => y.1 < x.1 + d) (a :: es) →
      debounceCalls d (a :: es) =
        [(((a :: es).getLast (List.cons_ne_nil a es)).1 + d,
          ((a :: es).getLast (List.cons_ne_nil a es)).2)]
  | [], a, _ => by simp [debounceCalls]
  | b :: es, a, h => by
      have hr : b.1 < a.1 + d := (List.chain'_cons.mp h).1
      have ih := debounceCalls_chain d es b (List.chain'_cons.mp h).2
      obtain ⟨t, c⟩ := a
      obtain ⟨t2, c2⟩ := b
      simp only [debounceCalls, if_pos hr] at *
      rw [ih]
      simp [List.getLast_cons]

/-- C5: with an image loaded, for every nonempty sequence of triggering
events in which each event arrives strictly before 450 ms have passed
since the previous one, exactly one recognition call is issued, it fires
450 ms after the last event, and it uses the configuration observed at
the last event. -/
theorem debounce_coalesces (a : Nat × OcrConfig) (es : List (Nat × OcrConfig))
    (hchain : List.Chain' (fun x y => y.1 < x.1 + 450) (a :: es)) :
    scheduledCalls true (a :: es) =
      [(((a :: es).getLast (List.cons_ne_nil a es)).1 + 450,
        ((a :: es).getLast (List.cons_ne_nil a es)).2)] := by
  simpa [scheduledCalls] using debounceCalls_chain 450 es a hchain

/-- C5, witness: three triggers at 0, 100 and 400 ms (each within 450 ms
of its predecessor) produce the single call at 850 ms with the last
threshold and scale. -/
theorem debounce_coalesces_witness :
    scheduledCalls true [(0, ⟨160, 2⟩), (100, ⟨150, 2⟩), (400, ⟨150, 3⟩)] =
      [(850, ⟨150, 3⟩)] := by
  have h := debounce_coalesces (0, ⟨160, 2⟩) [(100, ⟨150, 2⟩), (400, ⟨150, 3⟩)]
    (by simp [List.chain'_cons])
  simpa using h

/-! ## Claim C2: stale completions -/

/-- C2, counterexample. The claim asserts a completion whose captured
generation differs from the current one leaves the displayed state
unchanged. After two dispatches the current generation is 2, yet the
completion of the first call (generation 1) still overwrites the UI:
the webview message listener has no generation check. -/
theorem stale_completion_counterexample :
    (runEvents orchInit [OrchEvent.request, OrchEvent.request]).currentGen = 2 ∧
      (1 : Nat) ≠ 2 ∧
      (orchStep (runEvents orchInit [OrchEvent.request, OrchEvent.request])
          (OrchEvent.completion 1 (WvMsg.ocrResult (some "STALE") none none))).ui ≠
        (runEvents orchInit [OrchEvent.request, OrchEvent.request]).ui := by
  refine ⟨rfl, by decide, ?_⟩
  intro hcontra
  have : (WebviewUiState.output
      ⟨"STALE", none, none, false, false⟩) = "" := by
    simpa [runEvents, orchInit, orchStep, applyWebviewMessage] using
      congrArg WebviewUiState.output hcontra
  simp at this

/-- C2, amended. The webview's message listener applies every completion
unconditionally: handling a completion rewrites the UI from its payload
alone, two completions with the same payload but different generations
produce identical states, and after any event history whatsoever the
displayed text equals the text of the last completion to arrive,
whatever generation that completion belongs to. -/
theorem stale_completion_last_wins (s : OrchState) (g g' : Nat) (m : WvMsg)
    (es : List OrchEvent) (t : String) (c : Option ℚ) (d : Option Nat) :
    orchStep s (OrchEvent.completion g m) =
        ⟨applyWebviewMessage m s.ui, s.currentGen⟩ ∧
      orchStep s (OrchEvent.completion g m) = orchStep s (OrchEvent.completion g' m) ∧
      (runEvents orchInit
          (es ++ [OrchEvent.completion g (WvMsg.ocrResult (some t) c d)])).ui.output
        = t := by
  refine ⟨rfl, rfl, ?_⟩
  simp [runEvents, List.foldl_append, orchStep, applyWebviewMessage]

/-! ## Claim C3: confidence aggregation -/

/-- C3, counterexample. The claim asserts that an aggregate confidence
reported by the backend is used directly. With aggregate 50 and a single
word confidence of 80, runOcr reports 80: the per-word mean overrides
the aggregate rather than the other way around. -/
theorem confidence_priority_counterexample :
    tsxConfidence ⟨none, some 50, some [⟨some 80⟩]⟩ = 80 ∧ (80 : ℚ) ≠ 50 := by
  constructor
  · norm_num [tsxConfidence]
  · norm_num

/-- C3, amended. In the page component the per-word mean takes precedence
whenever the words array is nonempty (each absent word confidence read
as 0); the aggregate is used only when there is no nonempty words array,
and 0 when there is no aggregate either. In the editor-extension adapter
the confidence is the mean of the valid word confidences when at least
one is present and is otherwise absent (undefined, not 0). -/
theorem confidence_aggregation_characterization :
    (∀ (d : TessData) (ws : List TessWord), d.words = some ws → ws ≠ [] →
        tsxConfidence d = (ws.map (fun w => w.confidence.getD 0)).sum / ws.length) ∧
      (∀ d : TessData, (d.words = none ∨ d.words = some []) →
        tsxConfidence d = (d.confidence.getD 0)) ∧
      (∀ l : List (Option ℚ),
        extConfidence (some l) =
          if 0 < (l.filterMap id).length
          then some ((l.filterMap id).sum / (l.filterMap id).length)
          else none) ∧
      extConfidence none = none := by
  refine ⟨?_, ?_, ?_, rfl⟩
  · intro d ws hws hne
    unfold tsxConfidence
    rw [hws]
    simp [List.length_pos.mpr hne, Option.getD]
  · intro d hd
    unfold tsxConfidence
    rcases hd with h | h <;> rw [h] <;> cases hc : d.confidence <;> simp [Option.getD]
  · intro l
    unfold extConfidence
    rcases hl : l with _ | ⟨x, xs⟩
    · simp
    · simp only [List.length_cons, if_pos (Nat.succ_pos _)]

/-- C3, witness: a words array of one 80-confidence word and one word
with no confidence yields (80 + 0) / 2 = 40 in the page component; the
extension adapter yields the mean 70 of two valid word confidences and
nothing for an empty list. -/
theorem confidence_aggregation_witness :
    tsxConfidence ⟨none, some 50, some [⟨some 80⟩, ⟨none⟩]⟩ = 40 ∧
      extConfidence (some [some 60, none, some 80]) = some 70 ∧
      extConfidence (some []) = none := by
  refine ⟨?_, ?_, ?_⟩
  · have h := confidence_aggregation_characterization.1
      ⟨none, some 50, some [⟨some 80⟩, ⟨none⟩]⟩ [⟨some 80⟩, ⟨none⟩] rfl (by simp)
    rw [h]
    norm_num
  · have h := confidence_aggregation_characterization.2.2.1 [some 60, none, some 80]
    rw [h]
    norm_num [List.filterMap_cons]
  · have h := confidence_aggregation_characterization.2.2.1 ([] : List (Option ℚ))
    rw [h]
    simp

/-! ## Claim C9: processing-error responses -/

/-- C9: when the OCR.space response carries the processing-error flag,
neither remote variant produces a success value, and the backend-supplied
error message is surfaced verbatim when one is available: a nonempty
string is passed through by both variants, the first element of a
nonempty array is used by the extension host, and a singleton array's
element is used by the popup. -/
theorem processing_error_surfaced (d : OcrSpaceResponse)
    (herr : d.isErroredOnProcessing = true) :
    (∀ r, callOcrSpaceParse d ≠ Except.ok r) ∧
      (∀ r, popupParse (some d) ≠ Except.ok r) ∧
      (∀ s, d.errorMessage = ErrMsgField.str s → s ≠ "" →
        callOcrSpaceParse d = Except.error s ∧
          popupParse (some d) = Except.error s) ∧
      (∀ m l, d.errorMessage = ErrMsgField.arr (m :: l) →
        callOcrSpaceParse d = Except.error m) ∧
      (∀ m, d.errorMessage = ErrMsgField.arr [m] →
        popupParse (some d) = Except.error m) := by
  refine ⟨?_, ?_, ?_, ?_, ?_⟩
  · intro r
    simp [callOcrSpaceParse, herr]
  · intro r
    simp [popupParse, herr]
  · intro s hs hne
    simp [callOcrSpaceParse, popupParse, herr, hs, strOrDefault, hne]
  · intro m l hm
    simp [callOcrSpaceParse, herr, hm]
  · intro m hm
    simp [popupParse, herr, hm, String.intercalate, String.intercalate.go]

/-- C9, witness: a response with the error flag and the backend message
"E201: bad input" makes both variants fail with exactly that message,
and an array-form message is surfaced from its first element. -/
theorem processing_error_surfaced_witness :
    callOcrSpaceParse ⟨true, ErrMsgField.str "E201: bad input", none, none⟩ =
        Except.error "E201: bad input" ∧
      popupParse (some ⟨true, ErrMsgField.str "E201: bad input", none, none⟩) =
        Except.error "E201: bad input" ∧
      callOcrSpaceParse ⟨true, ErrMsgField.arr ["engine fault", "retry"], none, none⟩ =
        Except.error "engine fault" := by
  refine ⟨?_, ?_, ?_⟩
  · exact (processing_error_surfaced ⟨true, ErrMsgField.str "E201: bad input", none, none⟩
      rfl).2.2.1 "E201: bad input" rfl (by decide) |>.1
  · exact (processing_error_surfaced ⟨true, ErrMsgField.str "E201: bad input", none, none⟩
      rfl).2.2.1 "E201: bad input" rfl (by decide) |>.2
  · exact (processing_error_surfaced ⟨true, ErrMsgField.arr ["engine fault", "retry"], none, none⟩
      rfl).2.2.2.1 "engine fault" ["retry"] rfl

/-! ## Claim C10: whitespace removal in the page component -/

/-- C10: for every backend text, the text stored into the page
component's result (trim followed by the global whitespace deletion)
contains no whitespace character at all, internal ones included. -/
theorem stored_text_has_no_whitespace (text : Option String) :
    (runOcrStoredText text).all (fun c => !isJsWs c) = true := by
  simp only [runOcrStoredText, removeWsAll, List.all_eq_true, List.mem_filter]
  intro c hc
  exact hc.2
